import Mathlib

/-!
Verification development for the zeus-myaade-monitor repository.

The core engine (deflection classifier, change detector, append-only check
history store, alert decision and run-cycle orchestration) lives in
`src/myaade_monitor_zeus.py`; the email integration in
`src/zeus_email_integration_v2.py`.  This file gives a shallow embedding of
that core: pure Python functions become Lean functions, the SQLite tables
become lists of records carried through explicit state passing, and the
external collaborators (Selenium browser session, screenshot capture, SMTP,
the wall clock and the SHA-256 routine from hashlib) become explicit inputs
to the embedded functions.
-/

set_option maxHeartbeats 1000000
set_option maxRecDepth 2048

namespace Zeus

/-! ## Python string semantics helpers -/

/-- `matchesAt needle hay` is true when `needle` occurs at the very start of
`hay` (character-wise equality), mirroring how CPython's substring scan tests
one alignment. -/
def matchesAt : List Char → List Char → Bool
  | [], _ => true
  | _ :: _, [] => false
  | a :: as, b :: bs => a == b && matchesAt as bs

/-- `containsSub needle hay` models Python's `needle in hay` on strings:
true when `needle` occurs contiguously anywhere in `hay` (an empty needle
matches every haystack, as in Python). -/
def containsSub (needle : List Char) : List Char → Bool
  | [] => matchesAt needle []
  | b :: bs => matchesAt needle (b :: bs) || containsSub needle bs

/-- Model of the whitespace set stripped by Python's `str.strip()` on the
ASCII repertoire reached by this program (space, tab, LF, CR, VT, FF). -/
def isPySpace (c : Char) : Bool :=
  c == ' ' || c == '\t' || c == '\n' || c == '\r' ||
  c == Char.ofNat 11 || c == Char.ofNat 12

/-- Model of Python `str.strip()`: drop leading and trailing whitespace. -/
def pyStrip (s : String) : String :=
  ⟨((s.data.dropWhile isPySpace).reverse.dropWhile isPySpace).reverse⟩

/-- Model of Python's `x or default` on an optional string: `None` and the
empty string are falsy and yield the default. -/
def pyOr (o : Option String) (d : String) : String :=
  match o with
  | some s => if s == "" then d else s
  | none => d

/-- Model of Python truthiness of an `Optional[str]`: `None` and `""` are
falsy, every other string is truthy. -/
def pyTruthy (o : Option String) : Bool :=
  match o with
  | some s => s != ""
  | none => false

/-- Model of Python f-string interpolation of an `Optional[str]` value
(`str(None)` is the text `None`). -/
def pyShow (o : Option String) : String :=
  match o with
  | some s => s
  | none => "None"

/-- Model of Python `s.startswith(pre)`: character-wise prefix test. -/
def pyStartswith (s pre : String) : Bool :=
  matchesAt pre.data s.data

/-- Model of Python slicing `s[:n]`: the first `n` characters. -/
def pyTake (s : String) (n : Nat) : String :=
  ⟨s.data.take n⟩

/-! ## Text normalization (`analyze_deflection._norm`)

The source normalizes by `casefold()` followed by `unicodedata.normalize("NFD", ...)`
and removal of every character of Unicode category Mn (nonspacing marks).
The embedding models `casefold` as a character-to-character lookup table and
NFD as a character-to-characters decomposition table, both covering the
repertoire exercised by the program (basic Latin and monotonic Greek,
including the polytonic `ῦ` of the test scenarios); characters outside the
tables are inert, exactly as unaccented folded characters are under the real
library functions. -/

/-- Case-folding table: Latin `A`-`Z`, the Greek capitals, final sigma `ς`
(which casefolds to `σ`) and the tonos-accented Greek capitals. Every value
is itself fold-fixed. -/
def foldTable : List (Char × Char) :=
  [('A', 'a'), ('B', 'b'), ('C', 'c'), ('D', 'd'), ('E', 'e'), ('F', 'f'),
   ('G', 'g'), ('H', 'h'), ('I', 'i'), ('J', 'j'), ('K', 'k'), ('L', 'l'),
   ('M', 'm'), ('N', 'n'), ('O', 'o'), ('P', 'p'), ('Q', 'q'), ('R', 'r'),
   ('S', 's'), ('T', 't'), ('U', 'u'), ('V', 'v'), ('W', 'w'), ('X', 'x'),
   ('Y', 'y'), ('Z', 'z'),
   ('Α', 'α'), ('Β', 'β'), ('Γ', 'γ'), ('Δ', 'δ'), ('Ε', 'ε'), ('Ζ', 'ζ'),
   ('Η', 'η'), ('Θ', 'θ'), ('Ι', 'ι'), ('Κ', 'κ'), ('Λ', 'λ'), ('Μ', 'μ'),
   ('Ν', 'ν'), ('Ξ', 'ξ'), ('Ο', 'ο'), ('Π', 'π'), ('Ρ', 'ρ'), ('Σ', 'σ'),
   ('Τ', 'τ'), ('Υ', 'υ'), ('Φ', 'φ'), ('Χ', 'χ'), ('Ψ', 'ψ'), ('Ω', 'ω'),
   ('ς', 'σ'),
   ('Ά', 'ά'), ('Έ', 'έ'), ('Ή', 'ή'), ('Ί', 'ί'), ('Ό', 'ό'), ('Ύ', 'ύ'),
   ('Ώ', 'ώ')]

/-- NFD decomposition table for the precomposed characters reached after
case folding: tonos vowels decompose to base letter plus combining acute
(U+0301), dialytika vowels to base plus U+0308, and `ῦ` (U+1FE6) to upsilon
plus combining perispomeni (U+0342). -/
def decompTable : List (Char × List Char) :=
  [('ά', ['α', Char.ofNat 0x301]), ('έ', ['ε', Char.ofNat 0x301]),
   ('ή', ['η', Char.ofNat 0x301]), ('ί', ['ι', Char.ofNat 0x301]),
   ('ό', ['ο', Char.ofNat 0x301]), ('ύ', ['υ', Char.ofNat 0x301]),
   ('ώ', ['ω', Char.ofNat 0x301]), ('ϊ', ['ι', Char.ofNat 0x308]),
   ('ϋ', ['υ', Char.ofNat 0x308]), ('ῦ', ['υ', Char.ofNat 0x342])]

/-- Model of membership in Unicode category Mn for the repertoire reached
here: the Combining Diacritical Marks block U+0300-U+036F (which contains
the combining acute, dialytika, perispomeni and ypogegrammeni produced by
the decompositions above). -/
def isMn (c : Char) : Bool :=
  0x300 ≤ c.toNat && c.toNat ≤ 0x36F

/-- Character-level case folding (lookup with identity default). -/
def charFold (c : Char) : Char :=
  (List.lookup c foldTable).getD c

/-- Character-level NFD decomposition (lookup with singleton default). -/
def decomp (c : Char) : List Char :=
  (List.lookup c decompTable).getD [c]

/-- Normalization on character lists: casefold each character, decompose,
and drop nonspacing marks. -/
def normChars (l : List Char) : List Char :=
  ((l.map charFold).flatMap decomp).filter (fun c => !isMn c)

/-- `analyze_deflection._norm`: casefold, NFD-decompose and strip combining
diacritics, for accent- and case-insensitive Greek/Latin matching. -/
def _norm (s : String) : String :=
  ⟨normChars s.data⟩

/-! ## Deflection patterns and classifier (`analyze_deflection`) -/

/-- One entry of `DEFLECTION_PATTERNS`: a named pattern with Greek and
English keyword lists, a severity tag and a human description. The Python
dict preserves insertion order, so the table is a list. -/
structure DeflectionPattern where
  name : String
  keywords_el : List String
  keywords_en : List String
  severity : String
  description : String
  deriving DecidableEq, Repr

/-- The static `DEFLECTION_PATTERNS` table, in source order. -/
def DEFLECTION_PATTERNS : List DeflectionPattern :=
  [{ name := "forwarded",
     keywords_el := ["διαβιβάστηκε", "προωθήθηκε", "αρμόδια υπηρεσία"],
     keywords_en := ["forwarded", "referred to", "competent authority"],
     severity := "HIGH",
     description := "Protocol forwarded to another agency (deflection)" },
   { name := "under_review",
     keywords_el := ["εξετάζεται", "υπό επεξεργασία", "σε εξέλιξη"],
     keywords_en := ["under review", "processing", "in progress"],
     severity := "WATCH",
     description := "Generic 'under review' status (possible stalling)" },
   { name := "no_jurisdiction",
     keywords_el := ["αναρμόδιο", "δεν υπάγεται", "δεν εμπίπτει"],
     keywords_en := ["no jurisdiction", "not competent", "outside scope"],
     severity := "CRITICAL",
     description := "Agency claims no jurisdiction (hard deflection)" },
   { name := "responded",
     keywords_el := ["απαντήθηκε", "ολοκληρώθηκε", "διεκπεραιώθηκε"],
     keywords_en := ["answered", "completed", "resolved"],
     severity := "CRITICAL",
     description := "Marked as 'answered' -- verify actual resolution" },
   { name := "archived",
     keywords_el := ["αρχειοθετήθηκε", "τέθηκε στο αρχείο"],
     keywords_en := ["archived", "filed away"],
     severity := "CRITICAL",
     description := "Protocol archived without resolution" },
   { name := "doy_peiraia_redirect",
     keywords_el := ["δου κατοίκων εξωτερικού", "αρμόδια δου εξωτερικού",
                     "κατοίκων εξωτερικού"],
     keywords_en := ["doy foreign residents", "residents abroad tax office",
                     "not our doy"],
     severity := "CRITICAL",
     description := "ΔΟΥ A' Peiraia deflection to ΔΟΥ Κατοίκων Εξωτερικού" }]

/-- `analyze_deflection` generalized over the pattern table it iterates: for
each pattern in order, for each keyword of either language list, normalize
the keyword, skip it if it normalizes to empty, and return the pattern's
name, severity and description on the first substring hit. -/
def analyze_deflection_with (table : List DeflectionPattern) (text : String) :
    Option (String × String × String) :=
  let text_norm := (_norm text).data
  table.findSome? fun pattern =>
    if (pattern.keywords_el ++ pattern.keywords_en).any (fun keyword =>
        let norm_kw := (_norm keyword).data
        !norm_kw.isEmpty && containsSub norm_kw text_norm)
    then some (pattern.name, pattern.severity, pattern.description)
    else none

/-- `analyze_deflection`: analyze text for deflection patterns against the
static table; `none` models the Python `(None, None, None)` result. -/
def analyze_deflection (text : String) : Option (String × String × String) :=
  analyze_deflection_with DEFLECTION_PATTERNS text

/-- The matching condition of the spec for one pattern, with no
empty-keyword guard: some keyword of either list, once normalized, occurs
in the normalized text. -/
def patternMatches (pattern : DeflectionPattern) (text : String) : Bool :=
  (pattern.keywords_el ++ pattern.keywords_en).any fun keyword =>
    containsSub (_norm keyword).data (_norm text).data

/-! ## Data model (`ProtocolStatus` dataclass and the SQLite schema) -/

/-- The `ProtocolStatus` dataclass: one snapshot of one protocol at one
point in time, also the row shape of the `protocol_checks` table.
`checked_at` is filled from the clock at creation (`default_factory`), so
the embedding takes it as an explicit input. -/
structure ProtocolStatus where
  protocol_number : String
  status_text : String := ""
  status_date : String := ""
  agency : String := ""
  subject : String := ""
  response_text : String := ""
  deflection_type : Option String := none
  deflection_severity : Option String := none
  screenshot_path : Option String := none
  screenshot_hash : Option String := none
  page_source_hash : Option String := none
  checked_at : String
  raw_html_length : Nat := 0
  changed : Bool := false
  deriving DecidableEq, Repr

/-- A row of the `alerts` table, holding the values `_save_alert` inserts.
`severity` is the value passed for the `severity` column; it is optional
because the caller hands over `status.deflection_severity` unchanged in the
deflection branch. The delivery-confirmation flags keep their schema
default of 0 (transport is external to the core). -/
structure Alert where
  protocol_number : String
  alert_type : String
  severity : Option String
  message : String
  details : String := ""
  created_at : String
  deriving DecidableEq, Repr

/-- A row of the `monitor_runs` table. `id` models the AUTOINCREMENT
primary key, `completed_at` is NULL while the run is in progress. -/
structure MonitorRun where
  id : Nat
  started_at : String
  completed_at : Option String := none
  protocols_checked : Nat := 0
  alerts_generated : Nat := 0
  errors : Nat := 0
  status : String := "running"
  deriving DecidableEq, Repr

/-- The persistent store: the three tables of the schema, each as the list
of its rows in insertion order (AUTOINCREMENT ids are ascending, so
insertion order is id order). -/
structure DB where
  protocol_checks : List ProtocolStatus
  alerts : List Alert
  monitor_runs : List MonitorRun
  deriving DecidableEq, Repr

/-- The empty store produced by `init_database` on a fresh path. -/
def emptyDB : DB := ⟨[], [], []⟩

/-! ## Store operations -/

/-- `_save_check`: INSERT one row into `protocol_checks`. -/
def _save_check (db : DB) (status : ProtocolStatus) : DB :=
  { db with protocol_checks := db.protocol_checks ++ [status] }

/-- `_save_alert`: INSERT one row into `alerts` (the record already carries
the `created_at` timestamp the source reads from the clock). -/
def _save_alert (db : DB) (alert : Alert) : DB :=
  { db with alerts := db.alerts ++ [alert] }

/-- The `INSERT INTO monitor_runs (started_at) VALUES (?)` at cycle start;
the fresh AUTOINCREMENT id is one past the current row count. -/
def insert_run (db : DB) (started_at : String) : DB :=
  { db with monitor_runs := db.monitor_runs ++
      [{ id := db.monitor_runs.length + 1, started_at := started_at }] }

/-- The `UPDATE monitor_runs SET ... WHERE id = ?` at cycle end: fill the
completion fields and mark the run completed. -/
def update_run (db : DB) (run_id : Nat) (completed_at : String)
    (protocols_checked alerts_generated errors : Nat) : DB :=
  { db with monitor_runs := db.monitor_runs.map fun r =>
      if r.id == run_id then
        { r with completed_at := some completed_at,
                 protocols_checked := protocols_checked,
                 alerts_generated := alerts_generated,
                 errors := errors,
                 status := "completed" }
      else r }

/-- The write operations of the core store API. -/
inductive StoreOp where
  | saveCheck (status : ProtocolStatus)
  | saveAlert (alert : Alert)
  | insertRun (started_at : String)
  | completeRun (run_id : Nat) (completed_at : String)
      (protocols_checked alerts_generated errors : Nat)
  deriving DecidableEq, Repr

/-- Apply one store operation. -/
def applyOp (db : DB) : StoreOp → DB
  | .saveCheck status => _save_check db status
  | .saveAlert alert => _save_alert db alert
  | .insertRun started_at => insert_run db started_at
  | .completeRun run_id completed_at c a e =>
      update_run db run_id completed_at c a e

/-- Apply a sequence of store operations in order. -/
def applyOps (db : DB) (ops : List StoreOp) : DB :=
  ops.foldl applyOp db

/-- The snapshots appended by a sequence of store operations, in order. -/
def checksOf (ops : List StoreOp) : List ProtocolStatus :=
  ops.filterMap fun op =>
    match op with
    | .saveCheck status => some status
    | _ => none

/-- Modelled from the spec: the store's full-history query for one entity
(`SELECT * FROM protocol_checks WHERE protocol_number = ? ORDER BY id`).
No such reader appears under `src/` (only the latest-fingerprint query and
aggregate reports do); the spec's store contract requires it for audit and
replay, and on the schema it is the id-ordered filter of the table. -/
def historyFor (db : DB) (entity : String) : List ProtocolStatus :=
  db.protocol_checks.filter fun row => row.protocol_number == entity

/-- The row selected by `ORDER BY checked_at DESC LIMIT 1`: a maximal row
by the TEXT ordering of `checked_at` (ISO-8601 UTC strings, so byte order
is time order); among equal timestamps SQLite's choice is unspecified and
the model keeps the earliest-inserted. -/
def selectLatest (rows : List ProtocolStatus) : Option ProtocolStatus :=
  rows.foldl
    (fun acc row =>
      match acc with
      | none => some row
      | some best =>
          if best.checked_at < row.checked_at then some row else some best)
    none

/-- `_get_previous_status`: fingerprint of the most recent snapshot for the
entity, for change detection. The Python `row[0] if row else None` returns
`None` both when no row exists and when the stored hash column is NULL;
`Option.bind` collapses the two the same way. -/
def _get_previous_status (db : DB) (protocol_num : String) : Option String :=
  (selectLatest (db.protocol_checks.filter
      (fun row => row.protocol_number == protocol_num))).bind
    fun row => row.page_source_hash

/-! ## `check_protocol`

The browser session is an external collaborator: one check either yields
the raw page source plus the stripped texts of the status elements (with
`none` for the texts when extraction fails, which the source replaces by a
fixed message) and optionally a captured screenshot, or fails with a
WebDriver/other exception whose text is recorded. The SHA-256 fingerprint
routine from hashlib is likewise passed in as `hashFn`. -/

/-- Outcome of the external browser interaction for one protocol check. -/
inductive FetchResult where
  | success (pageSource : String) (elementTexts : Option (List String))
      (screenshot : Option (String × String))
  | failure (errMsg : String)
  deriving DecidableEq, Repr

/-- The snapshot produced by the exception handlers of `check_protocol`:
error text truncated to 200 characters, no fingerprint, no classification,
`changed` left at its default `False`. -/
def errorStatus (protocol_num errMsg now : String) : ProtocolStatus :=
  { protocol_number := protocol_num,
    status_text := "ERROR: " ++ pyTake errMsg 200,
    checked_at := now }

/-- `check_protocol`: build the snapshot for one protocol from the fetched
page, classify deflection over the extracted text plus the full page
source, and compare the fingerprint against the most recent stored one. -/
def check_protocol (hashFn : String → String) (db : DB)
    (protocol_num : String) (fetch : FetchResult) (now : String) :
    ProtocolStatus :=
  match fetch with
  | .failure errMsg => errorStatus protocol_num errMsg now
  | .success pageSource elementTexts screenshot =>
      let page_source_hash := hashFn pageSource
      let status_text :=
        match elementTexts with
        | none => "Unable to extract status text"
        | some els =>
            let texts := (els.map pyStrip).filter (fun t => t != "")
            pyTake (String.intercalate " " texts) 500
      let full_text := status_text ++ " " ++ pageSource
      let defl := analyze_deflection full_text
      let classified : Option String × Option String :=
        match defl with
        | some (defl_type, defl_sev, _descr) =>
            if defl_type != "" then (some defl_type, some defl_sev)
            else (none, none)
        | none => (none, none)
      let prev_hash := _get_previous_status db protocol_num
      let changed :=
        match prev_hash with
        | some prev => prev != "" && prev != page_source_hash
        | none => false
      { protocol_number := protocol_num,
        status_text := status_text,
        deflection_type := classified.1,
        deflection_severity := classified.2,
        screenshot_path := screenshot.map Prod.fst,
        screenshot_hash := screenshot.map Prod.snd,
        page_source_hash := some page_source_hash,
        checked_at := now,
        raw_html_length := pageSource.length,
        changed := changed }

/-! ## Alert decision and run cycle (`run_check_cycle`) -/

/-- The status-change message: notes the change, and also the deflection
when a classification is present. -/
def changeMsg (status : ProtocolStatus) : String :=
  "Protocol " ++ status.protocol_number ++ " status CHANGED" ++
    (if pyTruthy status.deflection_type then
       " -- DEFLECTION: " ++ pyShow status.deflection_type
     else "")

/-- The still-deflected message of the second alert branch. -/
def deflectionMsg (status : ProtocolStatus) : String :=
  "Protocol " ++ status.protocol_number ++ ": " ++
    pyShow status.deflection_type ++ " (" ++
    pyShow status.deflection_severity ++ ")"

/-- The alerts `run_check_cycle` persists for one snapshot, in order: a
`status_change` alert when `changed` is set (severity
`deflection_severity or "INFO"`), then a `deflection` alert when a
classification is present and `changed` is not set. -/
def alertsFor (status : ProtocolStatus) (now : String) : List Alert :=
  (if status.changed then
     [{ protocol_number := status.protocol_number,
        alert_type := "status_change",
        severity := some (pyOr status.deflection_severity "INFO"),
        message := changeMsg status,
        created_at := now }]
   else []) ++
  (if pyTruthy status.deflection_type && !status.changed then
     [{ protocol_number := status.protocol_number,
        alert_type := "deflection",
        severity := status.deflection_severity,
        message := deflectionMsg status,
        created_at := now }]
   else [])

/-- One protocol check of the cycle, as supplied by the environment: the
protocol number from `config.TRACKED_PROTOCOLS`, the browser outcome, and
the clock reading used for `checked_at` and the alert timestamps. -/
structure CheckInput where
  protocol_number : String
  fetch : FetchResult
  now : String
  deriving DecidableEq, Repr

/-- Loop state of `run_check_cycle`: the store plus the `alerts_count`,
`errors` and `results` accumulators. -/
structure CycleState where
  db : DB
  alerts_count : Nat
  errors : Nat
  results : List ProtocolStatus
  deriving DecidableEq, Repr

/-- One iteration of the cycle loop: check the protocol, persist the
snapshot, persist (and count) the decided alerts, and count an error when
the snapshot's status text carries the error marker. -/
def cycleStep (hashFn : String → String) (st : CycleState)
    (inp : CheckInput) : CycleState :=
  let status := check_protocol hashFn st.db inp.protocol_number inp.fetch inp.now
  let db := _save_check st.db status
  let alerts := alertsFor status inp.now
  let db := alerts.foldl _save_alert db
  { db := db,
    alerts_count := st.alerts_count + alerts.length,
    errors := st.errors +
      (if pyStartswith status.status_text "ERROR:" then 1 else 0),
    results := st.results ++ [status] }

/-- Result dict of `run_check_cycle`, plus the store it leaves behind. -/
structure CycleResult where
  db : DB
  run_id : Nat
  protocols_checked : Nat
  alerts : Nat
  errors : Nat
  results : List ProtocolStatus
  deriving DecidableEq, Repr

/-- `run_check_cycle`: open a run row, check every tracked protocol in
order (persisting each snapshot and its alerts), then close the run row
with the counts. The shutdown-signal break and the outbound webhook sends
are external I/O outside the store model. -/
def run_check_cycle (hashFn : String → String) (db : DB)
    (inputs : List CheckInput) (cycle_start cycle_end : String) :
    CycleResult :=
  let run_id := db.monitor_runs.length + 1
  let db := insert_run db cycle_start
  let final := inputs.foldl (cycleStep hashFn)
    { db := db, alerts_count := 0, errors := 0, results := [] }
  let dbF := update_run final.db run_id cycle_end final.results.length
    final.alerts_count final.errors
  { db := dbF,
    run_id := run_id,
    protocols_checked := final.results.length,
    alerts := final.alerts_count,
    errors := final.errors,
    results := final.results }

/-! ## Email integration (`zeus_email_integration_v2.py`)

Models of the Python `datetime` library collaborator first: naive local
datetimes become seconds since the Unix epoch (an `Int`), dates become day
counts, converted to and from the proleptic Gregorian calendar with the
standard civil-calendar algorithms. -/

/-- Days since 1970-01-01 of a proleptic Gregorian date (floor divisions
throughout, so the function is total on `Int`). -/
def daysFromCivil (y m d : Int) : Int :=
  let y := if m ≤ 2 then y - 1 else y
  let era := Int.fdiv y 400
  let yoe := y - era * 400
  let mp := if m > 2 then m - 3 else m + 9
  let doy := Int.fdiv (153 * mp + 2) 5 + d - 1
  let doe := yoe * 365 + Int.fdiv yoe 4 - Int.fdiv yoe 100 + doy
  era * 146097 + doe - 719468

/-- Proleptic Gregorian `(year, month, day)` of a day count since
1970-01-01. -/
def civilFromDays (z : Int) : Int × Int × Int :=
  let z := z + 719468
  let era := Int.fdiv z 146097
  let doe := z - era * 146097
  let yoe := Int.fdiv
    (doe - Int.fdiv doe 1460 + Int.fdiv doe 36524 - Int.fdiv doe 146096) 365
  let y := yoe + era * 400
  let doy := doe - (365 * yoe + Int.fdiv yoe 4 - Int.fdiv yoe 100)
  let mp := Int.fdiv (5 * doy + 2) 153
  let d := doy - Int.fdiv (153 * mp + 2) 5 + 1
  let m := if mp < 10 then mp + 3 else mp - 9
  (if m ≤ 2 then y + 1 else y, m, d)

/-- English month name, for `strftime('%B ...')`. -/
def monthName (m : Int) : String :=
  if m == 1 then "January" else if m == 2 then "February"
  else if m == 3 then "March" else if m == 4 then "April"
  else if m == 5 then "May" else if m == 6 then "June"
  else if m == 7 then "July" else if m == 8 then "August"
  else if m == 9 then "September" else if m == 10 then "October"
  else if m == 11 then "November" else if m == 12 then "December" else ""

/-- Two-digit zero padding for `strftime('%d')`, `'%I'`, `'%M'`. -/
def pad2 (n : Int) : String :=
  if 0 ≤ n && n < 10 then "0" ++ toString n else toString n

/-- `strftime('%B %d, %Y')` of a day count. -/
def fmtLongDate (days : Int) : String :=
  let c := civilFromDays days
  monthName c.2.1 ++ " " ++ pad2 c.2.2 ++ ", " ++ toString c.1

/-- `datetime.strptime(s, '%Y-%m-%d')` on the well-formed dates stored in
the protocol table (strptime would raise on anything else). -/
def strptimeYmd (s : String) : Int × Int × Int :=
  match s.splitOn "-" with
  | [y, m, d] => ((y.toNat?.getD 0 : Int), (m.toNat?.getD 0 : Int),
                  (d.toNat?.getD 0 : Int))
  | _ => (0, 1, 1)

/-- `datetime.now().strftime('%B %d, %Y at %I:%M %p EST')` for a clock
reading in seconds since the epoch. -/
def nowStamp (now : Int) : String :=
  let sod := Int.fmod now 86400
  let hh := Int.fdiv sod 3600
  let mm := Int.fdiv (Int.fmod sod 3600) 60
  let h12 := if Int.fmod hh 12 == 0 then 12 else Int.fmod hh 12
  let ampm := if hh < 12 then "AM" else "PM"
  fmtLongDate (Int.fdiv now 86400) ++ " at " ++ pad2 h12 ++ ":" ++ pad2 mm
    ++ " " ++ ampm ++ " EST"

/-- One entry of `MONITORED_PROTOCOLS`. -/
structure ProtocolInfo where
  name : String
  date : String
  deadline_days : Nat
  status : String
  severity : String
  statutory_basis : String
  deriving DecidableEq, Repr

/-- The five monitored protocols, in source order. -/
def MONITORED_PROTOCOLS : List (String × ProtocolInfo) :=
  [("214142",
    { name := "AADE Rebuttal - 319/320 Smoking Gun", date := "2026-02-11",
      deadline_days := 60, status := "ACTIVE - Awaiting response",
      severity := "CRITICAL", statutory_basis := "N.2690/1999 Art.4" }),
   ("ND0113",
    { name := "Ktimatologio Refusal + Stop Emailing Us", date := "2026-02-12",
      deadline_days := 19, status := "GASLIGHTING - Article 4p3 invoked",
      severity := "HIGH", statutory_basis := "N.2690/1999 Art.5" }),
   ("10690",
    { name := "Apoketromeni - Municipality Legality Review",
      date := "2026-02-15", deadline_days := 30,
      status := "ACTIVE - Art.225 N.3852/2010", severity := "HIGH",
      statutory_basis := "N.3852/2010 Art.225" }),
   ("5534",
    { name := "DESYP Acknowledgment - ZARAVINOU", date := "2026-02-12",
      deadline_days := 60,
      status := "RECEIVED - MARIA ZARAVINOU confirmation",
      severity := "HIGH", statutory_basis := "N.2690/1999 Art.4" }),
   ("051340",
    { name := "AIT.1 Ghost Refund Protocol", date := "2021-01-26",
      deadline_days := 0,
      status := "NO RESPONSE - Activated day after tax rep removal",
      severity := "CRITICAL",
      statutory_basis := "EXPIRED (5 years dormant)" })]

/-- The recipient tiers of `RECIPIENT_GROUPS` (the record-keeping address
comes from the `RECORD_EMAIL` environment variable, so it is a parameter of
the functions below). -/
def TIER_1_ENFORCEMENT : List String :=
  ["kataggelies@sdoe.gr", "sdoe@aade.gr", "kefode@aade.gr"]

/-- Second tier of `RECIPIENT_GROUPS`. -/
def TIER_2_OVERSIGHT : List String :=
  ["complaints@anticorruption.gr", "info@anticorruption.gr",
   "epopteiaota@attica.gr", "protokollo@attica.gr"]

/-- Third tier of `RECIPIENT_GROUPS`. -/
def TIER_3_INTERNATIONAL : List String :=
  ["Ana_Wolken@slotkin.senate.gov", "info@eppo.europa.eu"]

/-- `AGENCY_PATTERNS`: documented agency behavior quoted in the body. -/
def AGENCY_PATTERNS : List (String × String) :=
  [("AADE", "\"Charitable conclusion\" minimizing fraud (Protocol 214142)"),
   ("Ktimatologio",
    "\"Stop emailing us\" + Article 4p3 refusal (Protocol ND0113)"),
   ("Dimos Spetson",
    "8 errors in death certificate + total silence (Protocol 504)"),
   ("DESYP", "Acknowledge but no action (Protocol 5534)"),
   ("Cybercrime Unit", "\"Go to local authorities\" (case closed)")]

/-- The alert dict handed to `process_zeus_alert`; each optional field
models presence of the corresponding key (`dict.get` with a default). -/
structure AlertData where
  protocol_num : Option String := none
  severity : Option String := none
  change_type : Option String := none
  message : Option String := none
  deriving DecidableEq, Repr

/-- A value of the returned email-configuration dict: a string or a list
of strings. -/
inductive PyValue where
  | str (s : String)
  | strList (l : List String)
  deriving DecidableEq, Repr

/-- `_build_subject`: severity label and icon (with their defaults), short
name up to the first `" - "`. The icon and dash characters reproduce the
source file's literals byte for byte (they are mojibake in the source). -/
def _build_subject (protocol_num : String) (protocol_info : ProtocolInfo)
    (severity : String) : String :=
  let severity_label :=
    if severity == "CRITICAL" then "[CRITICAL]"
    else if severity == "HIGH" then "[HIGH]"
    else if severity == "MEDIUM" then "[MEDIUM]"
    else if severity == "LOW" then "[LOW]"
    else "[ALERT]"
  let severity_icon :=
    if severity == "CRITICAL" then "ðŸ”´"
    else if severity == "HIGH" then "ðŸŸ¡"
    else if severity == "MEDIUM" then "ðŸŸ¢"
    else if severity == "LOW" then "âš«"
    else "ðŸŸ¡"
  let short_name := (protocol_info.name.splitOn " - ").headD ""
  "âš–ï¸ " ++ severity_icon ++ " " ++ severity_label
    ++ " LEGAL NOTIFICATION â€” Protocol " ++ protocol_num
    ++ " â€” " ++ short_name

/-- `_build_email_body`: the legal-notification plain-text body. `now` is
the clock reading (seconds since epoch, naive local time). -/
def _build_email_body (protocol_num : String) (protocol_info : ProtocolInfo)
    (alert_data : AlertData) (now : Int) : String :=
  let filing := strptimeYmd protocol_info.date
  let filingDays := daysFromCivil filing.1 filing.2.1 filing.2.2
  let filingStr := fmtLongDate filingDays
  let deadline_str :=
    if protocol_info.deadline_days > 0 then
      let deadlineDays := filingDays + (protocol_info.deadline_days : Int)
      let days_remaining := Int.fdiv (deadlineDays * 86400 - now) 86400
      fmtLongDate deadlineDays ++ " (" ++ toString days_remaining
        ++ " days remaining)"
    else "EXPIRED"
  let sep := String.mk (List.replicate 63 '=')
  let pat := fun k => (List.lookup k AGENCY_PATTERNS).getD ""
  let body := "\n" ++ String.intercalate "\n"
    ["LEGAL NOTIFICATION - PROTOCOL " ++ protocol_num,
     sep, "",
     "RE: " ++ protocol_info.name,
     "Filed: " ++ filingStr,
     "Statutory Deadline: " ++ deadline_str,
     "Legal Basis: " ++ protocol_info.statutory_basis,
     "", sep, "",
     "I. NOTIFICATION", "",
     "This is a legal notification regarding Protocol " ++ protocol_num ++ ",",
     "filed with your agency on " ++ filingStr ++ ".",
     "",
     "Alert Type: " ++ alert_data.change_type.getD "status_update",
     "Severity: " ++ alert_data.severity.getD "HIGH",
     "Message: " ++ alert_data.message.getD "Status update",
     "", sep, "",
     "II. STATUTORY DEADLINE", "",
     "WARNING - STATUTORY DEADLINE: " ++ deadline_str,
     "LEGAL BASIS: " ++ protocol_info.statutory_basis,
     "",
     "CONSEQUENCES OF SILENCE:",
     "  [x] Documented as ADMINISTRATIVE FAILURE",
     "  [x] Escalation to superior oversight authorities",
     "  [x] Documentation to FBI IC3, EPPO, IRS Criminal Investigation",
     "  [x] Report to U.S. Senate Foreign Relations Committee",
     "  [x] Evidence of obstruction in ongoing criminal investigation",
     "", sep, "",
     "III. CASE CONTEXT", "",
     "Decedent: John Kyprianos (U.S. Citizen, June 13, 2021)",
     "Legal Heir: Stamatina Kyprianos (Widow, Sole Beneficiary)",
     "U.S.-Greece Tax Treaty Violations: Documented across 5 protocols",
     "",
     "Estate Assets:",
     "  - Property: Spetses Island (KAEK 05134000000508766)",
     "  - Property: Vosporou 14, Keratsini 18755 (KAEK 050681726008)",
     "  - Bank Accounts: NBG, Comerica Bank",
     "  - Tax Refund: EUR 5,000+ (Protocol 051340)",
     "", sep, "",
     "IV. EVIDENCE SUMMARY (27 Nuclear Evidence Items)", "",
     "1. 319/320 Checkbox Fraud (Protocol 214142)",
     "   AADE Form E1: Line 319 checked \"NO\" (no heirs)",
     "   Death Certificate: Line 320 lists WIDOW as heir",
     "   Filed same day, same office, impossible error",
     "",
     "2. Timeline Manipulation (Protocol 051340)",
     "   AIT.1 refund activated: January 26, 2021",
     "   Tax representative removed: January 25, 2021",
     "   Window closed before widow could access account",
     "",
     "3. Ktimatologio Obstruction (Protocol ND0113)",
     "   Refused to provide property records",
     "   Invoked Article 4p3 (GDPR) against LEGAL HEIR",
     "   \"Stop emailing us\" in official response",
     "", sep, "",
     "V. INTERNATIONAL OVERSIGHT", "",
     "U.S.: FBI IC3, IRS Criminal Investigation, Senator Slotkin",
     "EU: EPPO, OLAF",
     "GR: SDOE, AEAD, Apoketromeni",
     "", sep, "",
     "VI. YOUR PATTERN - DOCUMENTED", "",
     "AADE: " ++ pat "AADE",
     "Ktimatologio: " ++ pat "Ktimatologio",
     "Dimos Spetson: " ++ pat "Dimos Spetson",
     "DESYP: " ++ pat "DESYP",
     "Cybercrime Unit: " ++ pat "Cybercrime Unit",
     "", sep, "",
     "VII. REQUIRED ACTION", "",
     "1. Acknowledge receipt within 5 business days",
     "2. Provide written response to Protocol " ++ protocol_num,
     "3. Issue substantive response within statutory deadline",
     "", sep, "",
     "FOR JOHN KYPRIANOS",
     "Hellenic Navy Veteran | U.S. Navy Service Member",
     "Naturalized U.S. Citizen - May 17, 1976",
     "Died: June 13, 2021",
     "",
     "\"No more silence. No more gaslighting.",
     "Just statutory deadlines and accountability.\"",
     "",
     "Sent via: Zeus Email Integration System v2.0",
     "Timestamp: " ++ nowStamp now,
     sep] ++ "\n"
  pyStrip body

/-- One character of `html.escape` (`quote=True`). -/
def escapeHtmlChar (c : Char) : String :=
  if c == '&' then "&amp;"
  else if c == '<' then "&lt;"
  else if c == '>' then "&gt;"
  else if c == '"' then "&quot;"
  else if c == '\'' then "&#x27;"
  else String.mk [c]

/-- `_plain_to_html`: HTML-escape the plain body, turn newlines into
`<br>`, and wrap in the fixed monospace shell. -/
def _plain_to_html (plain : String) : String :=
  let escaped := String.join (plain.data.map escapeHtmlChar)
  let escaped := escaped.replace "\n" "<br>\n"
  "<html><body style=\"font-family:Consolas,monospace;"
    ++ "font-size:13px;line-height:1.5;\">"
    ++ escaped ++ "</body></html>"

/-- `list(set(...))` on the cc list. CPython's set iteration order is
unspecified; the model fixes first-occurrence order, which is all later
consumers rely on (they only read membership and length). -/
def pySetList (l : List String) : List String :=
  l.eraseDups

/-- Recipient lists chosen by `_get_recipients` (`to_list`/`cc_list` are
the Python local names; `to` is reserved in Lean). -/
structure Recipients where
  to_list : List String
  cc_list : List String
  deriving DecidableEq, Repr

/-- `_get_recipients`: tier fan-out by severity, record-keeping address
always cc'd, cc deduplicated. -/
def _get_recipients (recordEmail severity : String) : Recipients :=
  let pair :=
    if severity == "CRITICAL" || severity == "HIGH" then
      (TIER_1_ENFORCEMENT, TIER_2_OVERSIGHT ++ TIER_3_INTERNATIONAL)
    else if severity == "MEDIUM" then (TIER_1_ENFORCEMENT, TIER_2_OVERSIGHT)
    else (TIER_1_ENFORCEMENT, ([] : List String))
  { to_list := pair.1, cc_list := pySetList (pair.2 ++ [recordEmail]) }

/-- `_get_attachments`: the fixed evidence pack, plus the protocol PDF for
`051340`. -/
def _get_attachments (protocol_num : String) : List String :=
  ["REBUTTAL-AADE-214142-319-320-Feb11-2026.pdf",
   "IRS-Evidence-Summary.pdf",
   "Tax-Treaty-Violations.pdf",
   "MASTER-PROTOCOL-TRACKER-Kyprianos-Case-2026.xlsx",
   "TIMELINE-CORRECTION-AIT1-SMOKING-GUN.md"] ++
  (if protocol_num == "051340" then ["protocol-051340.pdf"] else [])

/-- `process_zeus_alert`: reject unknown protocols with `None`, otherwise
assemble the email-configuration dict (returned as the key/value list the
Python dict literal builds, in insertion order). -/
def process_zeus_alert (recordEmail : String) (alert_data : AlertData)
    (now : Int) : Option (List (String × PyValue)) :=
  let protocol_num := alert_data.protocol_num.getD ""
  match List.lookup protocol_num MONITORED_PROTOCOLS with
  | none => none
  | some protocol_info =>
      let severity := alert_data.severity.getD protocol_info.severity
      let subject := _build_subject protocol_num protocol_info severity
      let body_plain := _build_email_body protocol_num protocol_info
        alert_data now
      let body_html := _plain_to_html body_plain
      let recipients := _get_recipients recordEmail severity
      some [("to", .strList recipients.to_list),
            ("cc", .strList recipients.cc_list),
            ("subject", .str subject),
            ("body_plain", .str body_plain),
            ("body_html", .str body_html),
            ("attachments", .strList (_get_attachments protocol_num)),
            ("protocol_num", .str protocol_num),
            ("severity", .str severity)]

/-! ## Auxiliary definitions for the verification -/

/-- Whether a browser interaction failed (an exception was raised). -/
def isFailure : FetchResult → Bool
  | .failure _ => true
  | .success _ _ _ => false

/-- A concrete stand-in for the SHA-256 hexdigest used in closed
instantiations (the theorems quantify over the hash function). -/
def testHash : String → String := fun s => "#" ++ s

/-! ## Auxiliary lemmas -/

theorem lookup_mem {α β : Type} [BEq α] [LawfulBEq α] {a : α} {b : β} :
    ∀ {l : List (α × β)}, List.lookup a l = some b → (a, b) ∈ l := by
  intro l h
  induction l with
  | nil => simp [List.lookup] at h
  | cons p t ih =>
      rw [List.lookup] at h
      by_cases hb : a == p.1
      · simp [hb] at h
        have : a = p.1 := eq_of_beq hb
        subst this
        subst h
        exact List.mem_cons_self _ _
      · simp [hb] at h
        exact List.mem_cons_of_mem _ (ih h)

theorem lookup_none_iff {α β : Type} [BEq α] [LawfulBEq α] (a : α) :
    ∀ (l : List (α × β)), List.lookup a l = none ↔ a ∉ l.map Prod.fst := by
  intro l
  induction l with
  | nil => simp
  | cons p t ih =>
      rw [List.lookup]
      by_cases hb : a == p.1
      · have : a = p.1 := eq_of_beq hb
        subst this
        simp [hb]
      · simp only [hb]
        rw [ih]
        simp only [List.map_cons, List.mem_cons]
        constructor
        · intro h hm
          rcases hm with he | hm
          · exact absurd (by simp [he]) hb
          · exact h hm
        · intro h hm
          exact h (Or.inr hm)

/-- A character is inert for the normalization pipeline: neither a
fold-table key, nor a decomposition-table key, nor a nonspacing mark. -/
def inertB (c : Char) : Bool :=
  (List.lookup c foldTable).isNone && (List.lookup c decompTable).isNone &&
    !isMn c

theorem fold_sound :
    foldTable.all
      (fun p => ((decomp p.2).filter (fun c => !isMn c)).all inertB) = true := by
  decide

theorem decomp_sound :
    decompTable.all
      (fun p => ((p.2).filter (fun c => !isMn c)).all inertB) = true := by
  decide

theorem normChar_inert (c d : Char)
    (h : d ∈ (decomp (charFold c)).filter (fun x => !isMn x)) :
    inertB d = true := by
  unfold charFold at h
  cases h1 : List.lookup c foldTable with
  | some v =>
      rw [h1] at h
      have hm := lookup_mem h1
      have := List.all_eq_true.mp fold_sound _ hm
      exact List.all_eq_true.mp this _ h
  | none =>
      rw [h1] at h
      simp only [Option.getD_none] at h
      unfold decomp at h
      cases h2 : List.lookup c decompTable with
      | some l =>
          rw [h2] at h
          have hm := lookup_mem h2
          have := List.all_eq_true.mp decomp_sound _ hm
          exact List.all_eq_true.mp this _ h
      | none =>
          rw [h2] at h
          simp only [Option.getD_none] at h
          rw [List.mem_filter] at h
          obtain ⟨hmem, hmn⟩ := h
          simp at hmem
          subst hmem
          unfold inertB
          simp [h1, h2, hmn]

theorem mem_normChars_inert (l : List Char) (d : Char)
    (h : d ∈ normChars l) : inertB d = true := by
  unfold normChars at h
  rw [List.mem_filter] at h
  obtain ⟨hmem, hmn⟩ := h
  rw [List.mem_flatMap] at hmem
  obtain ⟨a, ha, hd⟩ := hmem
  rw [List.mem_map] at ha
  obtain ⟨c, _, hc⟩ := ha
  subst hc
  exact normChar_inert c d (List.mem_filter.mpr ⟨hd, hmn⟩)

theorem normChars_of_inert (l : List Char)
    (h : ∀ c ∈ l, inertB c = true) : normChars l = l := by
  induction l with
  | nil => rfl
  | cons c t ih =>
      have hc := h c (List.mem_cons_self _ _)
      unfold inertB at hc
      simp only [Bool.and_eq_true, Option.isNone_iff_eq_none,
        Bool.not_eq_true'] at hc
      obtain ⟨⟨h1, h2⟩, h3⟩ := hc
      unfold normChars at ih ⊢
      simp only [List.map_cons, List.flatMap_cons, List.filter_append]
      rw [ih (fun x hx => h x (List.mem_cons_of_mem _ hx))]
      unfold charFold decomp
      rw [h1]
      simp only [Option.getD_none]
      rw [h2]
      simp only [Option.getD_none]
      simp [List.filter, h3]

/-- The guarded per-pattern matching condition the classifier iterates. -/
def matchGuard (pattern : DeflectionPattern) (text : String) : Bool :=
  (pattern.keywords_el ++ pattern.keywords_en).any fun keyword =>
    !(_norm keyword).data.isEmpty &&
      containsSub (_norm keyword).data (_norm text).data

theorem analyze_eq_findSome (table : List DeflectionPattern) (text : String) :
    analyze_deflection_with table text =
      table.findSome? (fun p =>
        if matchGuard p text then some (p.name, p.severity, p.description)
        else none) := rfl

theorem findSome_if_eq_find {α β : Type} (pred : α → Bool) (f : α → β) :
    ∀ l : List α,
      l.findSome? (fun x => if pred x then some (f x) else none) =
        (l.find? pred).map f := by
  intro l
  induction l with
  | nil => rfl
  | cons a t ih =>
      rw [List.findSome?_cons, List.find?_cons]
      by_cases h : pred a
      · simp [h]
      · simp only [h]
        simpa using ih

theorem saveAll_alerts : ∀ (alerts : List Alert) (db : DB),
    alerts.foldl _save_alert db = { db with alerts := db.alerts ++ alerts } := by
  intro alerts
  induction alerts with
  | nil => intro db; simp
  | cons a t ih =>
      intro db
      rw [List.foldl_cons, ih]
      simp [_save_alert]

theorem check_protocol_checked_at (hashFn : String → String) (db : DB)
    (p : String) (f : FetchResult) (now : String) :
    (check_protocol hashFn db p f now).checked_at = now := by
  cases f <;> rfl

theorem cycleStep_eq (hashFn : String → String) (st : CycleState)
    (inp : CheckInput) :
    cycleStep hashFn st inp =
      { db := { st.db with
          protocol_checks := st.db.protocol_checks ++
            [check_protocol hashFn st.db inp.protocol_number inp.fetch inp.now],
          alerts := st.db.alerts ++
            alertsFor (check_protocol hashFn st.db inp.protocol_number inp.fetch inp.now) inp.now },
        alerts_count := st.alerts_count +
          (alertsFor (check_protocol hashFn st.db inp.protocol_number inp.fetch inp.now) inp.now).length,
        errors := st.errors +
          (if pyStartswith (check_protocol hashFn st.db inp.protocol_number inp.fetch inp.now).status_text "ERROR:"
           then 1 else 0),
        results := st.results ++
          [check_protocol hashFn st.db inp.protocol_number inp.fetch inp.now] } := by
  simp [cycleStep, _save_check, saveAll_alerts]

theorem cycle_fold_spec (hashFn : String → String) :
    ∀ (inputs : List CheckInput) (st : CycleState),
      ∃ new : List ProtocolStatus,
        (inputs.foldl (cycleStep hashFn) st).results = st.results ++ new ∧
        (inputs.foldl (cycleStep hashFn) st).db.protocol_checks
          = st.db.protocol_checks ++ new ∧
        (inputs.foldl (cycleStep hashFn) st).db.alerts
          = st.db.alerts ++ new.flatMap (fun s => alertsFor s s.checked_at) ∧
        (inputs.foldl (cycleStep hashFn) st).db.monitor_runs
          = st.db.monitor_runs ∧
        (inputs.foldl (cycleStep hashFn) st).alerts_count
          = st.alerts_count
            + (new.flatMap (fun s => alertsFor s s.checked_at)).length ∧
        (inputs.foldl (cycleStep hashFn) st).errors
          = st.errors
            + (new.filter (fun s => pyStartswith s.status_text "ERROR:")).length ∧
        new.length = inputs.length ∧
        (∀ pr ∈ inputs.zip new, ∀ err, pr.1.fetch = .failure err →
            pr.2 = errorStatus pr.1.protocol_number err pr.1.now) := by
  intro inputs
  induction inputs with
  | nil => intro st; exact ⟨[], by simp⟩
  | cons inp rest ih =>
      intro st
      rw [List.foldl_cons]
      obtain ⟨new', h1, h2, h3, h4, h5, h6, h7, h8⟩ :=
        ih (cycleStep hashFn st inp)
      refine ⟨check_protocol hashFn st.db inp.protocol_number inp.fetch inp.now :: new',
        ?_, ?_, ?_, ?_, ?_, ?_, ?_, ?_⟩
      · rw [h1, cycleStep_eq]
        simp
      · rw [h2, cycleStep_eq]
        simp
      · rw [h3, cycleStep_eq]
        simp [check_protocol_checked_at]
      · rw [h4, cycleStep_eq]
      · rw [h5, cycleStep_eq]
        simp [check_protocol_checked_at]
        omega
      · rw [h6, cycleStep_eq]
        simp only [List.filter_cons]
        cases hp : pyStartswith (check_protocol hashFn st.db inp.protocol_number inp.fetch inp.now).status_text "ERROR:"
        · simp [hp]
        · simp [hp]
          omega
      · simp [h7]
      · intro pr hpr err hferr
        rw [List.zip_cons_cons] at hpr
        rcases List.mem_cons.mp hpr with hh | ht
        · subst hh
          simp only at hferr ⊢
          rw [hferr]
          rfl
        · exact h8 pr ht err hferr

theorem run_check_cycle_spec (hashFn : String → String) (db : DB)
    (inputs : List CheckInput) (cs ce : String) :
    (run_check_cycle hashFn db inputs cs ce).results.length = inputs.length ∧
    (run_check_cycle hashFn db inputs cs ce).protocols_checked = inputs.length ∧
    (run_check_cycle hashFn db inputs cs ce).db.protocol_checks
      = db.protocol_checks ++ (run_check_cycle hashFn db inputs cs ce).results ∧
    (run_check_cycle hashFn db inputs cs ce).db.alerts
      = db.alerts ++ (run_check_cycle hashFn db inputs cs ce).results.flatMap
          (fun r => alertsFor r r.checked_at) ∧
    (run_check_cycle hashFn db inputs cs ce).errors
      = ((run_check_cycle hashFn db inputs cs ce).results.filter
          (fun s => pyStartswith s.status_text "ERROR:")).length ∧
    (run_check_cycle hashFn db inputs cs ce).db.monitor_runs
      = (db.monitor_runs ++
          ([{ id := db.monitor_runs.length + 1, started_at := cs }] :
            List MonitorRun)).map
          (fun r : MonitorRun => if r.id == db.monitor_runs.length + 1 then
              { r with completed_at := some ce,
                       protocols_checked :=
                         (run_check_cycle hashFn db inputs cs ce).results.length,
                       alerts_generated :=
                         (run_check_cycle hashFn db inputs cs ce).alerts,
                       errors := (run_check_cycle hashFn db inputs cs ce).errors,
                       status := "completed" }
            else r) ∧
    (∀ pr ∈ inputs.zip (run_check_cycle hashFn db inputs cs ce).results,
        ∀ err, pr.1.fetch = .failure err →
          pr.2 = errorStatus pr.1.protocol_number err pr.1.now) := by
  obtain ⟨new, h1, h2, h3, h4, h5, h6, h7, h8⟩ :=
    cycle_fold_spec hashFn inputs
      { db := insert_run db cs, alerts_count := 0, errors := 0, results := [] }
  have hres : (run_check_cycle hashFn db inputs cs ce).results = new := by
    simp [run_check_cycle, h1]
  refine ⟨?_, ?_, ?_, ?_, ?_, ?_, ?_⟩
  · rw [hres, h7]
  · simp [run_check_cycle, h1, h7]
  · rw [hres]
    simp [run_check_cycle, update_run]
    rw [h2]
    rfl
  · rw [hres]
    simp [run_check_cycle, update_run]
    rw [h3]
    rfl
  · rw [hres]
    simp only [run_check_cycle]
    rw [h6]
    simp
  · simp only [run_check_cycle, update_run]
    rw [h4]
    simp [insert_run]
  · intro pr hpr err hf
    rw [hres] at hpr
    exact h8 pr hpr err hf

/-- A map that fixes every element of a list is the identity on it. -/
theorem map_id_on {α : Type} (f : α → α) :
    ∀ l : List α, (∀ x ∈ l, f x = x) → l.map f = l := by
  intro l
  induction l with
  | nil => intro _; rfl
  | cons a t ih =>
      intro h
      rw [List.map_cons, h a (List.mem_cons_self _ _),
        ih (fun x hx => h x (List.mem_cons_of_mem _ hx))]

/-- The error marker test succeeds on every text the exception handlers
produce. -/
theorem pyStartswith_error (s : String) :
    pyStartswith ("ERROR: " ++ s) "ERROR:" = true := by
  simp only [pyStartswith, String.data_append]
  rfl

/-- Every alert the decision step emits is a status-change or a deflection
alert. -/
theorem mem_alertsFor (s : ProtocolStatus) (now : String) (a : Alert)
    (h : a ∈ alertsFor s now) :
    a.alert_type = "status_change" ∨ a.alert_type = "deflection" := by
  unfold alertsFor at h
  rw [List.mem_append] at h
  rcases h with h | h
  · left
    cases hc : s.changed
    · rw [hc] at h
      simp at h
    · rw [hc] at h
      simp at h
      rw [h]
  · right
    cases hc : pyTruthy s.deflection_type && !s.changed
    · rw [hc] at h
      simp at h
    · rw [hc] at h
      simp at h
      rw [h]

/-- The `changed` field computed on a successful check is exactly the
guarded comparison against the stored previous fingerprint. -/
theorem check_protocol_success_changed (hashFn : String → String) (db : DB)
    (p ps : String) (ets : Option (List String))
    (ss : Option (String × String)) (now : String) :
    (check_protocol hashFn db p (.success ps ets ss) now).changed =
      (match _get_previous_status db p with
       | some prev => prev != "" && prev != hashFn ps
       | none => false) := rfl

/-- A successful check always records the fingerprint of the fetched page. -/
theorem check_protocol_success_hash (hashFn : String → String) (db : DB)
    (p ps : String) (ets : Option (List String))
    (ss : Option (String × String)) (now : String) :
    (check_protocol hashFn db p (.success ps ets ss) now).page_source_hash =
      some (hashFn ps) := rfl

/-- Only `saveCheck` touches the snapshot table. -/
theorem applyOp_checks (db : DB) (op : StoreOp) :
    (applyOp db op).protocol_checks = db.protocol_checks ++
      (match op with | .saveCheck s => [s] | _ => []) := by
  cases op <;> simp [applyOp, _save_check, _save_alert, insert_run, update_run]

/-- Store operations only ever append to the snapshot table. -/
theorem applyOps_checks :
    ∀ (ops : List StoreOp) (db : DB),
      (applyOps db ops).protocol_checks = db.protocol_checks ++ checksOf ops := by
  intro ops
  induction ops with
  | nil => intro db; simp [applyOps, checksOf]
  | cons op t ih =>
      intro db
      rw [show applyOps db (op :: t) = applyOps (applyOp db op) t from rfl,
        ih, applyOp_checks]
      cases op <;> simp [checksOf, List.filterMap_cons]

/-- `process_zeus_alert` on an unknown protocol number. -/
theorem process_none (recordEmail : String) (alert_data : AlertData) (now : Int)
    (h : List.lookup (alert_data.protocol_num.getD "") MONITORED_PROTOCOLS
      = none) :
    process_zeus_alert recordEmail alert_data now = none := by
  simp only [process_zeus_alert]
  rw [h]

/-- `process_zeus_alert` on a monitored protocol number: the assembled
configuration dict, spelled out. -/
theorem process_some (recordEmail : String) (alert_data : AlertData) (now : Int)
    (info : ProtocolInfo)
    (h : List.lookup (alert_data.protocol_num.getD "") MONITORED_PROTOCOLS
      = some info) :
    process_zeus_alert recordEmail alert_data now =
      some [("to", .strList (_get_recipients recordEmail
              (alert_data.severity.getD info.severity)).to_list),
            ("cc", .strList (_get_recipients recordEmail
              (alert_data.severity.getD info.severity)).cc_list),
            ("subject", .str (_build_subject (alert_data.protocol_num.getD "")
              info (alert_data.severity.getD info.severity))),
            ("body_plain", .str (_build_email_body
              (alert_data.protocol_num.getD "") info alert_data now)),
            ("body_html", .str (_plain_to_html (_build_email_body
              (alert_data.protocol_num.getD "") info alert_data now))),
            ("attachments", .strList (_get_attachments
              (alert_data.protocol_num.getD ""))),
            ("protocol_num", .str (alert_data.protocol_num.getD "")),
            ("severity", .str (alert_data.severity.getD info.severity))] := by
  simp only [process_zeus_alert]
  rw [h]

/-! ## The claims -/

/-- Claim C1: for every snapshot with `changed = true` that carries a
deflection classification, the run cycle persists exactly one alert for
that snapshot — a "status_change" alert at the classification's severity
whose message notes both the change and the deflection — and no separate
"deflection" alert; with `changed = true` and no classification, the single
"status_change" alert has severity INFO. The last conjunct ties
`alertsFor` to the alerts ledger `run_check_cycle` leaves behind. -/
theorem claim_C1_status_change_alert (s : ProtocolStatus) (now : String)
    (hch : s.changed = true) :
    (∀ t sev, s.deflection_type = some t → t ≠ "" →
        s.deflection_severity = some sev → sev ≠ "" →
        alertsFor s now =
          [{ protocol_number := s.protocol_number,
             alert_type := "status_change",
             severity := some sev,
             message := "Protocol " ++ s.protocol_number ++ " status CHANGED -- DEFLECTION: " ++ t,
             created_at := now }]) ∧
    (s.deflection_type = none → s.deflection_severity = none →
        alertsFor s now =
          [{ protocol_number := s.protocol_number,
             alert_type := "status_change",
             severity := some "INFO",
             message := "Protocol " ++ s.protocol_number ++ " status CHANGED",
             created_at := now }]) ∧
    (∀ hashFn db inputs cs ce,
        (run_check_cycle hashFn db inputs cs ce).db.alerts =
          db.alerts ++ (run_check_cycle hashFn db inputs cs ce).results.flatMap
            (fun r => alertsFor r r.checked_at)) := by
  refine ⟨?_, ?_, ?_⟩
  · intro t sev ht htne hs hsne
    simp [alertsFor, changeMsg, pyOr, pyTruthy, pyShow, hch, ht, hs, htne,
      hsne, String.append_assoc]
    rw [show (" status CHANGED -- DEFLECTION: " : String)
          = " status CHANGED" ++ " -- DEFLECTION: " from rfl]
    rw [String.append_assoc]
  · intro ht hs
    simp [alertsFor, changeMsg, pyOr, pyTruthy, pyShow, hch, ht, hs]
  · intro hashFn db inputs cs ce
    exact (run_check_cycle_spec hashFn db inputs cs ce).2.2.2.1

/-- A changed snapshot carrying the "forwarded"/HIGH classification. -/
def wSnapC1 : ProtocolStatus :=
  { protocol_number := "214142",
    deflection_type := some "forwarded",
    deflection_severity := some "HIGH",
    checked_at := "2026-02-25T10:00:00+00:00",
    changed := true }

/-- Witness for C1 at a concrete changed-and-deflected snapshot. -/
theorem claim_C1_status_change_alert_witness :
    alertsFor wSnapC1 "2026-02-25T10:00:00+00:00" =
      [{ protocol_number := "214142",
         alert_type := "status_change",
         severity := some "HIGH",
         message := "Protocol 214142 status CHANGED -- DEFLECTION: forwarded",
         created_at := "2026-02-25T10:00:00+00:00" }] :=
  (claim_C1_status_change_alert wSnapC1 "2026-02-25T10:00:00+00:00" rfl).1
    "forwarded" "HIGH" rfl (by decide) rfl (by decide)

/-- Claim C2: for every snapshot carrying a deflection classification whose
`changed` flag is false, the run cycle persists exactly one alert — a
"deflection" alert at the classification's severity — and no
"status_change" alert; the last conjunct again ties `alertsFor` to the
cycle's alerts ledger. -/
theorem claim_C2_deflection_alert (s : ProtocolStatus) (now t sev : String)
    (hch : s.changed = false) (ht : s.deflection_type = some t) (htne : t ≠ "")
    (hs : s.deflection_severity = some sev) :
    alertsFor s now =
      [{ protocol_number := s.protocol_number,
         alert_type := "deflection",
         severity := some sev,
         message := "Protocol " ++ s.protocol_number ++ ": " ++ t ++ " (" ++ sev ++ ")",
         created_at := now }] ∧
    (∀ hashFn db inputs cs ce,
        (run_check_cycle hashFn db inputs cs ce).db.alerts =
          db.alerts ++ (run_check_cycle hashFn db inputs cs ce).results.flatMap
            (fun r => alertsFor r r.checked_at)) := by
  constructor
  · simp [alertsFor, deflectionMsg, pyTruthy, pyShow, hch, ht, hs, htne,
      String.append_assoc]
  · intro hashFn db inputs cs ce
    exact (run_check_cycle_spec hashFn db inputs cs ce).2.2.2.1

/-- A still-deflected, unchanged snapshot (end-to-end scenario 3). -/
def wSnapC2 : ProtocolStatus :=
  { protocol_number := "214142",
    deflection_type := some "forwarded",
    deflection_severity := some "HIGH",
    checked_at := "2026-02-25T10:05:00+00:00",
    changed := false }

/-- Witness for C2 at a concrete unchanged deflected snapshot. -/
theorem claim_C2_deflection_alert_witness :
    alertsFor wSnapC2 "2026-02-25T10:05:00+00:00" =
      [{ protocol_number := "214142",
         alert_type := "deflection",
         severity := some "HIGH",
         message := "Protocol 214142: forwarded (HIGH)",
         created_at := "2026-02-25T10:05:00+00:00" }] :=
  (claim_C2_deflection_alert wSnapC2 "2026-02-25T10:05:00+00:00" "forwarded"
    "HIGH" rfl rfl (by decide) rfl).1

/-- A prior snapshot from an errored check: error text, NULL fingerprint. -/
def cexPriorC3 : ProtocolStatus :=
  { protocol_number := "214142",
    status_text := "ERROR: Message: timeout",
    checked_at := "2026-02-25T10:00:00+00:00" }

/-- A store holding only that errored snapshot. -/
def cexDBC3 : DB :=
  { protocol_checks := [cexPriorC3], alerts := [], monitor_runs := [] }

/-- Claim C3 (as stated) is false on the code: the store can hold a prior
snapshot whose fingerprint column is NULL (an errored check records no
fingerprint), and the new snapshot's fingerprint then differs from it, yet
`changed` stays false because `_get_previous_status` returns `None` for a
NULL column and the `if prev_hash` guard short-circuits. Here the most
recent prior snapshot exists, its fingerprint differs from the new one, and
`changed` is false. -/
theorem claim_C3_counterexample :
    selectLatest (cexDBC3.protocol_checks.filter
        (fun r => r.protocol_number == "214142")) = some cexPriorC3 ∧
    cexPriorC3.page_source_hash ≠
      (check_protocol testHash cexDBC3 "214142"
        (.success "page" none none) "t2").page_source_hash ∧
    (check_protocol testHash cexDBC3 "214142"
      (.success "page" none none) "t2").changed = false := by
  refine ⟨rfl, ?_, ?_⟩
  · decide
  · decide

/-- Claim C3 (amended): with no prior snapshot for the entity, `changed` is
false; otherwise `changed` is true exactly when the most recent prior
snapshot (by observation time, descending) carries a non-NULL, non-empty
fingerprint that differs from the new snapshot's fingerprint — a prior
snapshot with no recorded fingerprint never makes `changed` true. -/
theorem claim_C3_change_detection (hashFn : String → String) (db : DB)
    (p ps : String) (ets : Option (List String))
    (ss : Option (String × String)) (now : String) :
    (historyFor db p = [] →
        (check_protocol hashFn db p (.success ps ets ss) now).changed = false) ∧
    (∀ prev, selectLatest (db.protocol_checks.filter
          (fun r => r.protocol_number == p)) = some prev →
        ((check_protocol hashFn db p (.success ps ets ss) now).changed = true ↔
          ∃ h, prev.page_source_hash = some h ∧ h ≠ "" ∧
            some h ≠ (check_protocol hashFn db p (.success ps ets ss) now).page_source_hash)) := by
  constructor
  · intro hemp
    rw [check_protocol_success_changed]
    unfold _get_previous_status
    unfold historyFor at hemp
    rw [hemp]
    rfl
  · intro prev hprev
    rw [check_protocol_success_changed, check_protocol_success_hash]
    unfold _get_previous_status
    rw [hprev]
    rw [show ((some prev).bind fun row => row.page_source_hash)
          = prev.page_source_hash from rfl]
    cases hh : prev.page_source_hash with
    | none => simp
    | some h =>
        simp only [Option.some.injEq]
        constructor
        · intro hc
          rw [Bool.and_eq_true] at hc
          exact ⟨h, rfl, by simpa using hc.1, by simpa using hc.2⟩
        · rintro ⟨h2, he, hne, hne2⟩
          subst he
          rw [Bool.and_eq_true]
          exact ⟨by simpa using hne, by simpa using hne2⟩

/-- A prior snapshot with a recorded fingerprint. -/
def wPriorC3 : ProtocolStatus :=
  { protocol_number := "214142",
    page_source_hash := some "A",
    checked_at := "t1" }

/-- A store holding only that snapshot. -/
def wDBC3 : DB :=
  { protocol_checks := [wPriorC3], alerts := [], monitor_runs := [] }

/-- Witness for C3: a differing fingerprint yields `changed = true`. -/
theorem claim_C3_change_detection_witness :
    (check_protocol testHash wDBC3 "214142"
      (.success "page" none none) "t2").changed = true :=
  ((claim_C3_change_detection testHash wDBC3 "214142" "page" none none
      "t2").2 wPriorC3 (by decide)).mpr ⟨"A", rfl, by decide, by decide⟩

/-- Claim C4: the classifier returns the projection of the first pattern in
table order one of whose (normalized, either-language) keywords occurs in
the normalized input, and `none` when no pattern matches; being a pure
function of the text over a fixed table, it is deterministic, and a text
matching two patterns is classified as the one declared earlier (both
consequences of the `find?` form). -/
theorem claim_C4_classifier_priority (text : String) :
    analyze_deflection text =
      (DEFLECTION_PATTERNS.find? (fun p => patternMatches p text)).map
        (fun p => (p.name, p.severity, p.description)) := by
  rw [analyze_deflection, analyze_eq_findSome, findSome_if_eq_find]
  congr 1

/-- Claim C5: in any pattern table, a keyword that normalizes to the empty
string is skipped: whenever the classifier returns a pattern, some keyword
of that pattern has a non-empty normalization occurring in the normalized
text, so an empty-normalizing keyword never causes its pattern to match. -/
theorem claim_C5_empty_keyword_guard (table : List DeflectionPattern)
    (text n sv d : String)
    (h : analyze_deflection_with table text = some (n, sv, d)) :
    ∃ p ∈ table, p.name = n ∧ p.severity = sv ∧ p.description = d ∧
      ∃ kw ∈ p.keywords_el ++ p.keywords_en,
        (_norm kw).data ≠ [] ∧
        containsSub (_norm kw).data (_norm text).data = true := by
  rw [analyze_eq_findSome] at h
  obtain ⟨p, hp, hf⟩ := List.exists_of_findSome?_eq_some h
  cases hm : matchGuard p text with
  | false => rw [hm] at hf; simp at hf
  | true =>
      rw [hm] at hf
      simp only [if_true, Option.some.injEq, Prod.mk.injEq] at hf
      obtain ⟨rfl, rfl, rfl⟩ := hf
      refine ⟨p, hp, rfl, rfl, rfl, ?_⟩
      unfold matchGuard at hm
      rw [List.any_eq_true] at hm
      obtain ⟨kw, hkw, hc⟩ := hm
      rw [Bool.and_eq_true] at hc
      refine ⟨kw, hkw, ?_, hc.2⟩
      simpa using hc.1

/-- A pattern table containing a keyword that normalizes to empty. -/
def wTableC5 : List DeflectionPattern :=
  [{ name := "p1", keywords_el := ["", "x"], keywords_en := [],
     severity := "HIGH", description := "d" }]

/-- Witness for C5: with an empty keyword in the table, a match is still
justified only by the non-empty keyword. -/
theorem claim_C5_empty_keyword_guard_witness :
    ∃ p ∈ wTableC5, p.name = "p1" ∧ p.severity = "HIGH" ∧
      p.description = "d" ∧
      ∃ kw ∈ p.keywords_el ++ p.keywords_en,
        (_norm kw).data ≠ [] ∧
        containsSub (_norm kw).data (_norm "text with x").data = true :=
  claim_C5_empty_keyword_guard wTableC5 "text with x" "p1" "HIGH" "d"
    (by decide)

/-- Claim C6: the classifier's normalization (casefold, then strip
combining diacritics) is idempotent, and the accent/case variants `ΔΟΥ`,
`δου` and `δοῦ` all normalize to the same string. -/
theorem claim_C6_normalization_idempotent :
    (∀ s : String, _norm (_norm s) = _norm s) ∧
    _norm "ΔΟΥ" = _norm "δου" ∧ _norm "δου" = _norm "δοῦ" := by
  refine ⟨?_, by decide, by decide⟩
  intro s
  unfold _norm
  have h : (String.mk (normChars s.data)).data = normChars s.data := rfl
  rw [h]
  rw [normChars_of_inert _ (fun c hc => mem_normChars_inert _ c hc)]

/-- A successful check whose scraped element text begins with `ERROR:`. -/
def cexInputC7 : CheckInput :=
  { protocol_number := "214142",
    fetch := .success "x" (some ["ERROR: y"]) none,
    now := "t1" }

/-- Claim C7 (as stated) is false on the code: the error count of a run is
incremented whenever a snapshot's status text starts with `ERROR:`, and a
successful check whose extracted page text itself begins with `ERROR:`
trips the same in-band marker. Here one entity is checked, its browser
fetch succeeds, no check fails, yet the closed run counts one error. -/
theorem claim_C7_counterexample :
    (run_check_cycle testHash emptyDB [cexInputC7] "t0" "t2").errors = 1 ∧
    ([cexInputC7].filter (fun inp => isFailure inp.fetch)).length = 0 := by
  constructor
  · decide
  · decide

/-- Claim C7 (amended): a failure during one entity's check is contained to
that entity — its snapshot records the error text, carries no
classification and has `changed` false — the remaining entities are still
checked (one result per input), and the run record is closed out completed
with an error count equal to the number of snapshots whose status text
starts with `ERROR:`; this counts every failed check (failures always
produce such text) but can also count a successful check whose scraped
text itself starts with `ERROR:`. The freshness hypothesis is the
AUTOINCREMENT primary-key invariant of the run table. -/
theorem claim_C7_error_containment (hashFn : String → String) (db : DB)
    (inputs : List CheckInput) (cs ce : String)
    (hfresh : ∀ r ∈ db.monitor_runs, r.id ≠ db.monitor_runs.length + 1) :
    (run_check_cycle hashFn db inputs cs ce).results.length = inputs.length ∧
    (∀ pr ∈ inputs.zip (run_check_cycle hashFn db inputs cs ce).results,
        ∀ err, pr.1.fetch = .failure err →
          pr.2.status_text = "ERROR: " ++ pyTake err 200 ∧
          pr.2.deflection_type = none ∧
          pr.2.deflection_severity = none ∧
          pr.2.changed = false ∧
          pyStartswith pr.2.status_text "ERROR:" = true) ∧
    (run_check_cycle hashFn db inputs cs ce).db.monitor_runs
      = db.monitor_runs ++
        [{ id := db.monitor_runs.length + 1,
           started_at := cs,
           completed_at := some ce,
           protocols_checked := inputs.length,
           alerts_generated := (run_check_cycle hashFn db inputs cs ce).alerts,
           errors := ((run_check_cycle hashFn db inputs cs ce).results.filter
               (fun s => pyStartswith s.status_text "ERROR:")).length,
           status := "completed" }] := by
  obtain ⟨hlen, hpc, hchecks, halerts, herr, hruns, hpair⟩ :=
    run_check_cycle_spec hashFn db inputs cs ce
  refine ⟨hlen, ?_, ?_⟩
  · intro pr hpr err hf
    have he := hpair pr hpr err hf
    rw [he]
    exact ⟨rfl, rfl, rfl, rfl, pyStartswith_error _⟩
  · rw [hruns, List.map_append]
    rw [map_id_on _ _ (fun r hr => by
      have hne : (r.id == db.monitor_runs.length + 1) = false :=
        beq_eq_false_iff_ne.mpr (hfresh r hr)
      simp [hne])]
    simp only [List.map_cons, List.map_nil, beq_self_eq_true, if_true]
    rw [← herr, hlen]

/-- A check whose browser interaction fails with an exception. -/
def wInputC7 : CheckInput :=
  { protocol_number := "214142", fetch := .failure "boom", now := "t1" }

/-- Witness for C7 at a one-entity cycle whose only check fails. -/
theorem claim_C7_error_containment_witness :
    (errorStatus "214142" "boom" "t1").status_text
        = "ERROR: " ++ pyTake "boom" 200 ∧
    (errorStatus "214142" "boom" "t1").deflection_type = none ∧
    (errorStatus "214142" "boom" "t1").deflection_severity = none ∧
    (errorStatus "214142" "boom" "t1").changed = false ∧
    pyStartswith (errorStatus "214142" "boom" "t1").status_text "ERROR:"
        = true :=
  (claim_C7_error_containment testHash emptyDB [wInputC7] "t0" "t2"
      (by simp [emptyDB])).2.1
    (wInputC7, errorStatus "214142" "boom" "t1") (by decide) "boom" rfl

/-- Claim C8: the snapshot history is append-only — any sequence of core
store operations (saving checks, saving alerts, creating or completing
runs) leaves the existing `protocol_checks` rows untouched and appends
exactly the saved snapshots in order, so an entity's full history is its
old history plus its newly appended snapshots in insertion order (and from
an empty store, exactly the N appended records). -/
theorem claim_C8_append_only (db : DB) (ops : List StoreOp) (entity : String) :
    (applyOps db ops).protocol_checks = db.protocol_checks ++ checksOf ops ∧
    historyFor (applyOps db ops) entity
      = historyFor db entity
        ++ (checksOf ops).filter (fun s => s.protocol_number == entity) ∧
    (historyFor (applyOps emptyDB ops) entity).length
      = ((checksOf ops).filter (fun s => s.protocol_number == entity)).length := by
  refine ⟨applyOps_checks ops db, ?_, ?_⟩
  · unfold historyFor
    rw [applyOps_checks, List.filter_append]
  · unfold historyFor
    rw [applyOps_checks]
    simp [emptyDB]

/-- Claim C9: every alert the run cycle adds to the alerts ledger is of
kind "status_change" or "deflection" — no other kind (in particular no
"deadline_missed") is ever persisted by the core loop. -/
theorem claim_C9_alert_kinds (hashFn : String → String) (db : DB)
    (inputs : List CheckInput) (cs ce : String) (a : Alert)
    (ha : a ∈ (run_check_cycle hashFn db inputs cs ce).db.alerts) :
    a ∈ db.alerts ∨ a.alert_type = "status_change"
      ∨ a.alert_type = "deflection" := by
  rw [(run_check_cycle_spec hashFn db inputs cs ce).2.2.2.1] at ha
  rcases List.mem_append.mp ha with h | h
  · exact Or.inl h
  · rw [List.mem_flatMap] at h
    obtain ⟨s, _, hs⟩ := h
    exact Or.inr (mem_alertsFor s s.checked_at a hs)

/-- A prior snapshot whose fingerprint will differ from the next fetch. -/
def wPriorC9 : ProtocolStatus :=
  { protocol_number := "214142",
    page_source_hash := some "A",
    checked_at := "t0" }

/-- A store holding only that snapshot. -/
def wDBC9 : DB :=
  { protocol_checks := [wPriorC9], alerts := [], monitor_runs := [] }

/-- The status-change alert that cycle persists. -/
def wAlertC9 : Alert :=
  { protocol_number := "214142",
    alert_type := "status_change",
    severity := some "INFO",
    message := "Protocol 214142 status CHANGED",
    created_at := "t1" }

/-- Witness for C9 at a cycle that actually persists an alert. -/
theorem claim_C9_alert_kinds_witness :
    wAlertC9 ∈ wDBC9.alerts ∨ wAlertC9.alert_type = "status_change"
      ∨ wAlertC9.alert_type = "deflection" :=
  claim_C9_alert_kinds testHash wDBC9
    [{ protocol_number := "214142", fetch := .success "b" none none,
       now := "t1" }] "t0" "t2" wAlertC9 (by decide)

/-- Claim C10: `process_zeus_alert` returns `None` exactly when the alert's
protocol number is not one of the five monitored keys; for a monitored key
it returns the configuration dict with exactly the keys `to`, `cc`,
`subject`, `body_plain`, `body_html`, `attachments`, `protocol_num` and
`severity`, whose `severity` entry is the alert's severity when supplied
and otherwise the protocol's configured severity. -/
theorem claim_C10_process_zeus_alert (recordEmail : String)
    (alert_data : AlertData) (now : Int) :
    (process_zeus_alert recordEmail alert_data now = none ↔
      (alert_data.protocol_num.getD "") ∉ MONITORED_PROTOCOLS.map Prod.fst) ∧
    MONITORED_PROTOCOLS.map Prod.fst
      = ["214142", "ND0113", "10690", "5534", "051340"] ∧
    (∀ info,
      List.lookup (alert_data.protocol_num.getD "") MONITORED_PROTOCOLS
        = some info →
      ∃ cfg, process_zeus_alert recordEmail alert_data now = some cfg ∧
        cfg.map Prod.fst = ["to", "cc", "subject", "body_plain", "body_html",
          "attachments", "protocol_num", "severity"] ∧
        List.lookup "severity" cfg
          = some (.str (alert_data.severity.getD info.severity)) ∧
        List.lookup "protocol_num" cfg
          = some (.str (alert_data.protocol_num.getD ""))) := by
  refine ⟨?_, rfl, ?_⟩
  · cases hl : List.lookup (alert_data.protocol_num.getD "")
        MONITORED_PROTOCOLS with
    | none =>
        exact iff_of_true (process_none recordEmail alert_data now hl)
          ((lookup_none_iff _ _).mp hl)
    | some info =>
        refine iff_of_false ?_ ?_
        · rw [process_some recordEmail alert_data now info hl]
          simp
        · intro hnot
          exact hnot (List.mem_map_of_mem Prod.fst (lookup_mem hl))
  · intro info hl
    refine ⟨_, process_some recordEmail alert_data now info hl, rfl, rfl, rfl⟩

/-- An alert for monitored protocol ND0113 that supplies no severity. -/
def wAlertDataC10 : AlertData :=
  { protocol_num := some "ND0113",
    change_type := some "status_change",
    message := some "Ktimatologio update" }

/-- Witness for C10: processing the ND0113 alert yields the configuration
dict with the full key list and the protocol's configured HIGH severity. -/
theorem claim_C10_process_zeus_alert_witness :
    ∃ cfg, process_zeus_alert "record@example.org" wAlertDataC10 0
        = some cfg ∧
      cfg.map Prod.fst = ["to", "cc", "subject", "body_plain", "body_html",
        "attachments", "protocol_num", "severity"] ∧
      List.lookup "severity" cfg = some (.str "HIGH") ∧
      List.lookup "protocol_num" cfg = some (.str "ND0113") :=
  (claim_C10_process_zeus_alert "record@example.org" wAlertDataC10 0).2.2
    { name := "Ktimatologio Refusal + Stop Emailing Us", date := "2026-02-12",
      deadline_days := 19, status := "GASLIGHTING - Article 4p3 invoked",
      severity := "HIGH", statutory_basis := "N.2690/1999 Art.5" }
    (by decide)

end Zeus
